import Mathlib

/-!
Shallow embedding of the Aurora cycle scheduler
(`src/aurora_orchestrator.py`) together with the repository provider
modules the claims refer to (`src/memory_module.py`,
`src/cognitive_engine.py`).

Modelling conventions:
* A Python call that may raise is a function returning `Except String α`
  (`.error msg` = the call raised an exception with message `msg`).
* Module availability: `self.modules.get(name)` yields `Option` of a
  provider record; `none` corresponds to the `None` sentinel stored by
  `load_modules` on load failure (a loaded module object is always truthy).
* The five `async def process_*` coroutine bodies contain no `await`, so
  `asyncio.gather` runs them to completion sequentially in list order;
  the embedding threads the orchestrator state through them in that order.
* Wall-clock durations are inputs (`time.time()` differences), modelled as
  exact rationals `ℚ`; Python float rounding is not modelled.
* Every provider call, log record and metric write is recorded in an
  event trace (`Ev`) so that ordering and no-call properties are statable.
-/

/-- The `narrative` dict built by `AuroraOrchestrator.init_narrative`. -/
structure Narrative where
  identity : String
  backstory : String
  mission : String
  personality : String
  metrics : List (String × ℚ)
deriving DecidableEq

/-- `init_narrative(prompt)`: the initial narrative dict. -/
def init_narrative (prompt : String) : Narrative :=
  { identity := "Aurora"
    backstory := prompt
    mission := "Learn and evolve across all domains."
    personality := "undefined"
    metrics := [] }

/-- Mutable orchestrator-visible state touched by the task adapters:
the narrative dict plus the list of items stored in memory. -/
structure OrchState where
  narrative : Narrative
  memory : List String
deriving DecidableEq

/-- The `cognitive_engine` module as called by the orchestrator:
`process(narrative) -> thought`. -/
structure CogMod where
  process : Narrative → Except String String

/-- The `learning_module` module as called: `learn(narrative)`. -/
structure LearnMod where
  learn : Narrative → Except String Unit

/-- The `code_generator` module as called: `dynamic_update()`. -/
structure CodeMod where
  dynamic_update : Except String Unit

/-- The `memory_module` module as called by the orchestrator:
`store(item)` and `get_memory_summary()`.  `store` receives the current
stored-item list and returns the new list on success. -/
structure MemMod where
  store : List String → String → Except String (List String)
  get_memory_summary : List String → Except String String

/-- The `research_module` module as called:
`generate_topic`, `research`, `analyze_research`. -/
structure ResearchMod where
  generate_topic : String → Except String String
  research : String → Except String String
  analyze_research : String → Except String String

/-- The `personality_module` module as called:
`generate_personality(narrative, memory_summary)`. -/
structure PersMod where
  generate_personality : Narrative → String → Except String String

/-- The `self.modules` dict after `load_modules` has run: one entry per
fixed module name, `none` when the load failed. -/
structure Modules where
  cognitive_engine : Option CogMod
  learning_module : Option LearnMod
  memory_module : Option MemMod
  code_generator : Option CodeMod
  research_module : Option ResearchMod
  personality_module : Option PersMod

/-- Observable events of one cycle: module-registry outcomes, provider
calls with their arguments, log records, and the scheduler metric write. -/
inductive Ev where
  | loadOk (name : String)
  | loadErr (name : String)
  | callProcess (narr : Narrative)
  | callStore (item : String)
  | callSummary
  | callLearn (narr : Narrative)
  | callDynamicUpdate
  | callGenerateTopic (ctx : String)
  | callResearch (topic : String)
  | callAnalyze (result : String)
  | callGeneratePersonality (narr : Narrative) (summary : String)
  | logInfo (msg : String)
  | logWarn (msg : String)
  | logError (msg : String)
  | recordMetric (name : String) (value : ℚ)
deriving DecidableEq

/-- Result of running one task adapter body: the state reached, the
events emitted, and `some e` when an exception is propagating. -/
structure TaskOut where
  state : OrchState
  trace : List Ev
  exn : Option String
deriving DecidableEq

/-- The `except Exception as e: logger.error(...)` wrapper shared by all
five adapters: a propagating exception is logged and swallowed. -/
def catchTask (label : String) (out : TaskOut) : TaskOut :=
  match out.exn with
  | none => out
  | some e =>
      { state := out.state
        trace := out.trace ++ [Ev.logError (label ++ e)]
        exn := none }

/-- Body of `process_cognition` (the code inside its `try`). -/
def cognitionBody (mods : Modules) (s : OrchState) : TaskOut :=
  match mods.cognitive_engine with
  | none => { state := s, trace := [], exn := none }
  | some cog =>
      match cog.process s.narrative with
      | .error e =>
          { state := s, trace := [Ev.callProcess s.narrative], exn := some e }
      | .ok thought =>
          match mods.memory_module with
          | none =>
              { state := s
                trace := [Ev.callProcess s.narrative,
                          Ev.logInfo ("Processed thought: " ++ thought)]
                exn := none }
          | some mem =>
              match mem.store s.memory thought with
              | .error e =>
                  { state := s
                    trace := [Ev.callProcess s.narrative, Ev.callStore thought]
                    exn := some e }
              | .ok mem2 =>
                  { state := { s with memory := mem2 }
                    trace := [Ev.callProcess s.narrative, Ev.callStore thought,
                              Ev.logInfo ("Processed thought: " ++ thought)]
                    exn := none }

/-- `process_cognition`: body wrapped in its `try`/`except`. -/
def process_cognition (mods : Modules) (s : OrchState) : TaskOut :=
  catchTask "Error in cognitive_engine processing: " (cognitionBody mods s)

/-- Body of `process_learning`. -/
def learningBody (mods : Modules) (s : OrchState) : TaskOut :=
  match mods.learning_module with
  | none => { state := s, trace := [], exn := none }
  | some learn =>
      match learn.learn s.narrative with
      | .error e =>
          { state := s, trace := [Ev.callLearn s.narrative], exn := some e }
      | .ok _ =>
          { state := s
            trace := [Ev.callLearn s.narrative,
                      Ev.logInfo "Learning module processed narrative."]
            exn := none }

/-- `process_learning`: body wrapped in its `try`/`except`. -/
def process_learning (mods : Modules) (s : OrchState) : TaskOut :=
  catchTask "Error in learning_module: " (learningBody mods s)

/-- Body of `process_code_update`. -/
def codeUpdateBody (mods : Modules) (s : OrchState) : TaskOut :=
  match mods.code_generator with
  | none => { state := s, trace := [], exn := none }
  | some cg =>
      match cg.dynamic_update with
      | .error e =>
          { state := s, trace := [Ev.callDynamicUpdate], exn := some e }
      | .ok _ =>
          { state := s
            trace := [Ev.callDynamicUpdate,
                      Ev.logInfo "Code generator checked for updates."]
            exn := none }

/-- `process_code_update`: body wrapped in its `try`/`except`. -/
def process_code_update (mods : Modules) (s : OrchState) : TaskOut :=
  catchTask "Error in code_generator: " (codeUpdateBody mods s)

/-- Step 4 of the research pipeline, reached when steps 2–3 ran without
an exception: `analysis = analyze_research(result)`, log it, and if
memory is available store it with the `"GPT Analysis: "` tag. -/
def researchAnalyze (rm : ResearchMod) (memOpt : Option MemMod) (s1 : OrchState)
    (tr2 : List Ev) (result : String) : TaskOut :=
  let tr3 := tr2 ++ [Ev.logInfo ("Research result: " ++ result)]
  match rm.analyze_research result with
  | .error e =>
      { state := s1, trace := tr3 ++ [Ev.callAnalyze result], exn := some e }
  | .ok analysis =>
      let tr4 := tr3 ++ [Ev.callAnalyze result,
                         Ev.logInfo ("GPT analysis: " ++ analysis)]
      match memOpt with
      | none => { state := s1, trace := tr4, exn := none }
      | some mem =>
          match mem.store s1.memory ("GPT Analysis: " ++ analysis) with
          | .error e =>
              { state := s1
                trace := tr4 ++ [Ev.callStore ("GPT Analysis: " ++ analysis)]
                exn := some e }
          | .ok mem2 =>
              { state := { s1 with memory := mem2 }
                trace := tr4 ++ [Ev.callStore ("GPT Analysis: " ++ analysis)]
                exn := none }

/-- Steps 2–4 of the research pipeline, given the computed context:
`topic = generate_topic(context)`, `result = research(topic)` plus store
when memory is available, then the analysis step. -/
def researchFrom (rm : ResearchMod) (memOpt : Option MemMod) (s : OrchState)
    (tr0 : List Ev) (ctx : String) : TaskOut :=
  match rm.generate_topic ctx with
  | .error e =>
      { state := s, trace := tr0 ++ [Ev.callGenerateTopic ctx], exn := some e }
  | .ok topic =>
      let tr1 := tr0 ++ [Ev.callGenerateTopic ctx,
                         Ev.logInfo ("Generated research topic: " ++ topic)]
      match rm.research topic with
      | .error e =>
          { state := s, trace := tr1 ++ [Ev.callResearch topic], exn := some e }
      | .ok result =>
          match memOpt with
          | none =>
              researchAnalyze rm none s (tr1 ++ [Ev.callResearch topic]) result
          | some mem =>
              match mem.store s.memory result with
              | .error e =>
                  { state := s
                    trace := tr1 ++ [Ev.callResearch topic, Ev.callStore result]
                    exn := some e }
              | .ok mem2 =>
                  researchAnalyze rm (some mem) { s with memory := mem2 }
                    (tr1 ++ [Ev.callResearch topic, Ev.callStore result]) result

/-- Body of `process_research` (the four-step pipeline inside one `try`):
context from memory summary, `generate_topic`, `research` + store,
`analyze_research` + tagged store; unavailable provider logs a warning. -/
def researchBody (mods : Modules) (s : OrchState) : TaskOut :=
  match mods.research_module with
  | none =>
      { state := s, trace := [Ev.logWarn "Research module not loaded."], exn := none }
  | some rm =>
      match mods.memory_module with
      | none => researchFrom rm none s [] "No memory summary available."
      | some mem =>
          match mem.get_memory_summary s.memory with
          | .error e => { state := s, trace := [Ev.callSummary], exn := some e }
          | .ok ctx => researchFrom rm (some mem) s [Ev.callSummary] ctx

/-- `process_research`: body wrapped in its single `try`/`except`. -/
def process_research (mods : Modules) (s : OrchState) : TaskOut :=
  catchTask "Error in research_module: " (researchBody mods s)

/-- Body of `process_personality`: requires both the personality module
and the memory module, else warns and skips. -/
def personalityBody (mods : Modules) (s : OrchState) : TaskOut :=
  match mods.personality_module, mods.memory_module with
  | some pm, some mem =>
      (match mem.get_memory_summary s.memory with
       | .error e => { state := s, trace := [Ev.callSummary], exn := some e }
       | .ok summary =>
           match pm.generate_personality s.narrative summary with
           | .error e =>
               { state := s
                 trace := [Ev.callSummary,
                           Ev.callGeneratePersonality s.narrative summary]
                 exn := some e }
           | .ok newp =>
               { state := { s with narrative := { s.narrative with personality := newp } }
                 trace := [Ev.callSummary,
                           Ev.callGeneratePersonality s.narrative summary,
                           Ev.logInfo ("Updated personality: " ++ newp)]
                 exn := none })
  | _, _ =>
      { state := s
        trace := [Ev.logWarn "Personality or memory module not loaded; skipping personality update."]
        exn := none }

/-- `process_personality`: body wrapped in its `try`/`except`. -/
def process_personality (mods : Modules) (s : OrchState) : TaskOut :=
  catchTask "Error in personality_module: " (personalityBody mods s)

/-- One cycle's import environment: for each fixed module name the result
`importlib.import_module` / `importlib.reload` would produce
(`.error msg` = the import machinery raised). -/
structure ImportEnv where
  cognitive_engine : Except String CogMod
  learning_module : Except String LearnMod
  memory_module : Except String MemMod
  code_generator : Except String CodeMod
  research_module : Except String ResearchMod
  personality_module : Except String PersMod

/-- Per-name `try`/`except` of `load_modules` on the first load
(the name is not yet a key of `self.modules`). -/
def loadFresh {α : Type} (name : String) (res : Except String α) :
    Option α × List Ev :=
  match res with
  | .ok m => (some m, [Ev.loadOk name])
  | .error _ => (none, [Ev.loadErr name])

/-- Per-name `try`/`except` of `load_modules` on a later call: the name is
a key of `self.modules`, so the reload branch runs.  When the stored value
is `None` (previous failure), `importlib.reload(None)` raises `TypeError`
regardless of the environment, so the entry stays `none`. -/
def loadAgain {α : Type} (name : String) (prev : Option α)
    (res : Except String α) : Option α × List Ev :=
  match prev with
  | none => (none, [Ev.loadErr name])
  | some _ =>
      match res with
      | .ok m => (some m, [Ev.loadOk name])
      | .error _ => (none, [Ev.loadErr name])

/-- `load_modules` as called from `__init__` (no keys present yet). -/
def importModules (env : ImportEnv) : Modules × List Ev :=
  let c := loadFresh "cognitive_engine" env.cognitive_engine
  let l := loadFresh "learning_module" env.learning_module
  let m := loadFresh "memory_module" env.memory_module
  let g := loadFresh "code_generator" env.code_generator
  let r := loadFresh "research_module" env.research_module
  let p := loadFresh "personality_module" env.personality_module
  (⟨c.1, l.1, m.1, g.1, r.1, p.1⟩,
   c.2 ++ l.2 ++ m.2 ++ g.2 ++ r.2 ++ p.2)

/-- `load_modules` as called from `run_cycle` (every name already a key). -/
def load_modules (env : ImportEnv) (prev : Modules) : Modules × List Ev :=
  let c := loadAgain "cognitive_engine" prev.cognitive_engine env.cognitive_engine
  let l := loadAgain "learning_module" prev.learning_module env.learning_module
  let m := loadAgain "memory_module" prev.memory_module env.memory_module
  let g := loadAgain "code_generator" prev.code_generator env.code_generator
  let r := loadAgain "research_module" prev.research_module env.research_module
  let p := loadAgain "personality_module" prev.personality_module env.personality_module
  (⟨c.1, l.1, m.1, g.1, r.1, p.1⟩,
   c.2 ++ l.2 ++ m.2 ++ g.2 ++ r.2 ++ p.2)

/-- Scheduler-level state: orchestrator state, the `self.modules` dict,
the global `cycle_counter`, and `self.cycle_wait` (set to 1.0 in
`__init__` and never reassigned). -/
structure SchedState where
  orch : OrchState
  modules : Modules
  cycleCounter : Nat
  cycle_wait : ℚ

/-- Python dict assignment `d[k] = v` on an association list. -/
def setKey (m : List (String × ℚ)) (k : String) (v : ℚ) : List (String × ℚ) :=
  match m with
  | [] => [(k, v)]
  | (k1, v1) :: rest =>
      if k1 = k then (k, v) :: rest else (k1, v1) :: setKey rest k v

/-- Result of one `run_cycle` call: successor state, event trace, the
computed adaptive wait, and `some e` when an exception escaped
`run_cycle` uncaught. -/
structure CycleOut where
  state : SchedState
  trace : List Ev
  wait : ℚ
  exn : Option String

/-- Sequence a further task after the accumulated fan-out result; an
already-propagating exception skips the rest (as `asyncio.gather` with
the default settings re-raises the first exception). -/
def taskSeq (acc : OrchState × List Ev × Option String)
    (f : OrchState → TaskOut) : OrchState × List Ev × Option String :=
  match acc.2.2 with
  | none => ((f acc.1).state, acc.2.1 ++ (f acc.1).trace, (f acc.1).exn)
  | some _ => acc

/-- The `asyncio.gather` fan-out of the five task adapters.  None of the
coroutine bodies contains an `await`, so they run to completion in list
order: cognition, learning, code update, research, personality. -/
def runTasks (mods : Modules) (s : OrchState) :
    OrchState × List Ev × Option String :=
  taskSeq (taskSeq (taskSeq (taskSeq (taskSeq (s, [], none)
    (process_cognition mods))
    (process_learning mods))
    (process_code_update mods))
    (process_research mods))
    (process_personality mods)

/-- `run_cycle`: reload modules, fan out the five tasks, record the
cycle duration metric, bump the counter, compute the adaptive wait.
`d` is the measured cycle duration (difference of the two
`time.time()` readings). -/
def run_cycle (env : ImportEnv) (d : ℚ) (st : SchedState) : CycleOut :=
  let load := load_modules env st.modules
  let tasks := runTasks load.1 st.orch
  match tasks with
  | (s1, taskTr, some e) =>
      { state := { st with orch := s1, modules := load.1 }
        trace := load.2 ++ taskTr
        wait := 0
        exn := some e }
  | (s1, taskTr, none) =>
      let n2 := { s1.narrative with
                    metrics := setKey s1.narrative.metrics "last_cycle_duration" d }
      { state := { orch := { s1 with narrative := n2 }
                   modules := load.1
                   cycleCounter := st.cycleCounter + 1
                   cycle_wait := st.cycle_wait }
        trace := load.2 ++ taskTr ++ [Ev.recordMetric "last_cycle_duration" d]
        wait := max (1/2 : ℚ) (st.cycle_wait - d * (1/10))
        exn := none }

/-- The `run` loop, unrolled: state after `n` cycles, where cycle `i`
sees import environment `envs i` and measures duration `ds i`. -/
def runCycles (envs : Nat → ImportEnv) (ds : Nat → ℚ) (st : SchedState) :
    Nat → SchedState
  | 0 => st
  | n + 1 => (run_cycle (envs n) (ds n) (runCycles envs ds st n)).state

/-- `AuroraOrchestrator.__init__`: initial narrative, first module load,
`cycle_wait = 1.0`; the global `cycle_counter` starts at 0 and the
memory store starts empty. -/
def auroraInit (env : ImportEnv) (prompt : String) : SchedState :=
  { orch := { narrative := init_narrative prompt, memory := [] }
    modules := (importModules env).1
    cycleCounter := 0
    cycle_wait := 1 }

/-- The single-quote character, for faithful string literals. -/
def quoteCh : String := String.singleton (Char.ofNat 39)

/-- The three insight phrases `random.choice` picks from in
`cognitive_engine.process`. -/
def cogInsights : List String :=
  ["expanding neural paths", "optimizing internal logic", "integrating new data streams"]

/-- The thought string built by `cognitive_engine.process` when the
random choice picks index `pick % 3`. -/
def repoThought (n : Narrative) (pick : Nat) : String :=
  "[" ++ n.identity ++ " Thought] Reflecting on " ++ quoteCh ++
    (n.backstory.take 50) ++ "..." ++ quoteCh ++ " " ++
    "and pursuing the mission to " ++ n.mission.toLower ++ ". " ++
    "Insight: " ++ (cogInsights.getD (pick % 3) "") ++ "."

/-- The repository's `cognitive_engine` module: `process` is a total
module-level function; `pick` resolves the `random.choice`. -/
def repoCognitiveEngine (pick : Nat) : CogMod :=
  { process := fun n => .ok (repoThought n pick) }

/-- Python `AttributeError` message for a missing module attribute. -/
def attrErr (modName attr : String) : String :=
  "AttributeError: module " ++ quoteCh ++ modName ++ quoteCh ++
    " has no attribute " ++ quoteCh ++ attr ++ quoteCh

/-- The repository's `memory_module` module as seen by the orchestrator:
the file defines only the `MemoryModule` class and no module-level
`store` or `get_memory_summary` functions, so both attribute accesses
raise `AttributeError`. -/
def repoMemoryModule : MemMod :=
  { store := fun _ _ => .error (attrErr "memory_module" "store")
    get_memory_summary := fun _ => .error (attrErr "memory_module" "get_memory_summary") }

/-- Sequential characterization of the fan-out: each adapter runs to
completion in list order, threading the state. -/
def runTasksSeq (mods : Modules) (s : OrchState) : OrchState × List Ev :=
  let o1 := process_cognition mods s
  let o2 := process_learning mods o1.state
  let o3 := process_code_update mods o2.state
  let o4 := process_research mods o3.state
  let o5 := process_personality mods o4.state
  (o5.state, o1.trace ++ (o2.trace ++ (o3.trace ++ (o4.trace ++ o5.trace))))

lemma catchTask_exn (l : String) (o : TaskOut) : (catchTask l o).exn = none := by
  unfold catchTask
  rcases h : o.exn with _ | e <;> simp [h]

lemma catchTask_state (l : String) (o : TaskOut) : (catchTask l o).state = o.state := by
  unfold catchTask
  rcases h : o.exn with _ | e <;> simp [h]

lemma process_cognition_exn (mods : Modules) (s : OrchState) :
    (process_cognition mods s).exn = none := catchTask_exn _ _

lemma process_learning_exn (mods : Modules) (s : OrchState) :
    (process_learning mods s).exn = none := catchTask_exn _ _

lemma process_code_update_exn (mods : Modules) (s : OrchState) :
    (process_code_update mods s).exn = none := catchTask_exn _ _

lemma process_research_exn (mods : Modules) (s : OrchState) :
    (process_research mods s).exn = none := catchTask_exn _ _

lemma process_personality_exn (mods : Modules) (s : OrchState) :
    (process_personality mods s).exn = none := catchTask_exn _ _

lemma runTasks_eq (mods : Modules) (s : OrchState) :
    runTasks mods s = ((runTasksSeq mods s).1, (runTasksSeq mods s).2, none) := by
  unfold runTasks runTasksSeq
  simp only [taskSeq, process_cognition_exn, process_learning_exn,
    process_code_update_exn, process_research_exn, process_personality_exn,
    List.nil_append, List.append_assoc]

lemma run_cycle_eq (env : ImportEnv) (d : ℚ) (st : SchedState) :
    run_cycle env d st =
      { state :=
          { orch :=
              { (runTasksSeq (load_modules env st.modules).1 st.orch).1 with
                  narrative :=
                    { (runTasksSeq (load_modules env st.modules).1 st.orch).1.narrative with
                        metrics :=
                          setKey
                            (runTasksSeq (load_modules env st.modules).1 st.orch).1.narrative.metrics
                            "last_cycle_duration" d } }
            modules := (load_modules env st.modules).1
            cycleCounter := st.cycleCounter + 1
            cycle_wait := st.cycle_wait }
        trace :=
          (load_modules env st.modules).2 ++
            ((runTasksSeq (load_modules env st.modules).1 st.orch).2 ++
              [Ev.recordMetric "last_cycle_duration" d])
        wait := max (1/2 : ℚ) (st.cycle_wait - d * (1/10))
        exn := none } := by
  unfold run_cycle
  simp only [runTasks_eq]
  simp [List.append_assoc]

lemma process_cognition_state_shape (mods : Modules) (s : OrchState) :
    ∃ m, (process_cognition mods s).state = { s with memory := m } := by
  unfold process_cognition
  rw [catchTask_state]
  unfold cognitionBody
  repeat' split
  all_goals exact ⟨_, rfl⟩

lemma process_learning_state (mods : Modules) (s : OrchState) :
    (process_learning mods s).state = s := by
  unfold process_learning
  rw [catchTask_state]
  unfold learningBody
  repeat' split
  all_goals rfl

lemma process_code_update_state (mods : Modules) (s : OrchState) :
    (process_code_update mods s).state = s := by
  unfold process_code_update
  rw [catchTask_state]
  unfold codeUpdateBody
  repeat' split
  all_goals rfl

lemma researchAnalyze_state_shape (rm : ResearchMod) (memOpt : Option MemMod)
    (s1 : OrchState) (tr2 : List Ev) (result : String) :
    ∃ m, (researchAnalyze rm memOpt s1 tr2 result).state = { s1 with memory := m } := by
  unfold researchAnalyze
  repeat' split
  all_goals exact ⟨_, rfl⟩

lemma researchFrom_state_shape (rm : ResearchMod) (memOpt : Option MemMod)
    (s : OrchState) (tr0 : List Ev) (ctx : String) :
    ∃ m, (researchFrom rm memOpt s tr0 ctx).state = { s with memory := m } := by
  unfold researchFrom
  repeat' split
  · exact ⟨_, rfl⟩
  · exact ⟨_, rfl⟩
  · exact researchAnalyze_state_shape _ _ _ _ _
  · exact ⟨_, rfl⟩
  · exact researchAnalyze_state_shape _ _ _ _ _

lemma process_research_state_shape (mods : Modules) (s : OrchState) :
    ∃ m, (process_research mods s).state = { s with memory := m } := by
  unfold process_research
  rw [catchTask_state]
  unfold researchBody
  repeat' split
  · exact ⟨s.memory, rfl⟩
  · exact researchFrom_state_shape _ _ _ _ _
  · exact ⟨s.memory, rfl⟩
  · exact researchFrom_state_shape _ _ _ _ _

lemma process_personality_state_shape (mods : Modules) (s : OrchState) :
    ∃ p, (process_personality mods s).state
      = { s with narrative := { s.narrative with personality := p } } := by
  unfold process_personality
  rw [catchTask_state]
  unfold personalityBody
  repeat' split
  all_goals exact ⟨_, rfl⟩

lemma personality_gate_off (mods : Modules) (s : OrchState)
    (h : mods.personality_module = none ∨ mods.memory_module = none) :
    process_personality mods s =
      { state := s
        trace := [Ev.logWarn "Personality or memory module not loaded; skipping personality update."]
        exn := none } := by
  rcases h with h | h
  · simp [process_personality, personalityBody, catchTask, h]
  · rcases hp : mods.personality_module with _ | pm <;>
      simp [process_personality, personalityBody, catchTask, h, hp]

lemma personality_gate_on (mods : Modules) (s : OrchState) (pm : PersMod)
    (mem : MemMod) (summ newp : String)
    (hp : mods.personality_module = some pm)
    (hm : mods.memory_module = some mem)
    (hs : mem.get_memory_summary s.memory = .ok summ)
    (hg : pm.generate_personality s.narrative summ = .ok newp) :
    process_personality mods s =
      { state := { s with narrative := { s.narrative with personality := newp } }
        trace := [Ev.callSummary,
                  Ev.callGeneratePersonality s.narrative summ,
                  Ev.logInfo ("Updated personality: " ++ newp)]
        exn := none } := by
  simp [process_personality, personalityBody, catchTask, hp, hm, hs, hg]

lemma research_gate_off (mods : Modules) (s : OrchState)
    (h : mods.research_module = none) :
    process_research mods s =
      { state := s, trace := [Ev.logWarn "Research module not loaded."], exn := none } := by
  simp [process_research, researchBody, catchTask, h]

/-- The narrative argument passed to a provider call, when the event is
one of the three calls that receive the narrative. -/
def narrArgOf : Ev → Option Narrative
  | .callProcess n => some n
  | .callLearn n => some n
  | .callGeneratePersonality n _ => some n
  | _ => none

/-- Events that only the scheduler layer emits: module-registry outcomes
and metric writes. -/
def isSchedEv : Ev → Bool
  | .loadOk _ => true
  | .loadErr _ => true
  | .recordMetric _ _ => true
  | _ => false

lemma catchTask_all (p : Ev → Bool) (l : String) (o : TaskOut)
    (h : (o.trace.all p) = true) (hlog : ∀ m, p (Ev.logError m) = true) :
    ((catchTask l o).trace.all p) = true := by
  unfold catchTask
  rcases he : o.exn with _ | e <;> simp [he, List.all_append, h, hlog]

lemma cognition_body_no_sched (mods : Modules) (s : OrchState) :
    ((cognitionBody mods s).trace.all fun e => !isSchedEv e) = true := by
  unfold cognitionBody
  repeat' split
  all_goals simp [isSchedEv]

lemma cognition_no_sched (mods : Modules) (s : OrchState) :
    ((process_cognition mods s).trace.all fun e => !isSchedEv e) = true :=
  catchTask_all _ _ _ (cognition_body_no_sched mods s) (fun _ => rfl)

lemma learning_body_no_sched (mods : Modules) (s : OrchState) :
    ((learningBody mods s).trace.all fun e => !isSchedEv e) = true := by
  unfold learningBody
  repeat' split
  all_goals simp [isSchedEv]

lemma learning_no_sched (mods : Modules) (s : OrchState) :
    ((process_learning mods s).trace.all fun e => !isSchedEv e) = true :=
  catchTask_all _ _ _ (learning_body_no_sched mods s) (fun _ => rfl)

lemma code_body_no_sched (mods : Modules) (s : OrchState) :
    ((codeUpdateBody mods s).trace.all fun e => !isSchedEv e) = true := by
  unfold codeUpdateBody
  repeat' split
  all_goals simp [isSchedEv]

lemma code_no_sched (mods : Modules) (s : OrchState) :
    ((process_code_update mods s).trace.all fun e => !isSchedEv e) = true :=
  catchTask_all _ _ _ (code_body_no_sched mods s) (fun _ => rfl)

lemma researchAnalyze_no_sched (rm : ResearchMod) (memOpt : Option MemMod)
    (s1 : OrchState) (tr2 : List Ev) (result : String)
    (h : (tr2.all fun e => !isSchedEv e) = true) :
    ((researchAnalyze rm memOpt s1 tr2 result).trace.all fun e => !isSchedEv e) = true := by
  unfold researchAnalyze
  repeat' split
  all_goals simp [isSchedEv, List.all_append, h]
  all_goals
    intro x hx
    have hh := List.all_eq_true.mp h x hx
    simpa [isSchedEv, Bool.not_eq_true'] using hh

lemma researchFrom_no_sched (rm : ResearchMod) (memOpt : Option MemMod)
    (s : OrchState) (tr0 : List Ev) (ctx : String)
    (h : (tr0.all fun e => !isSchedEv e) = true) :
    ((researchFrom rm memOpt s tr0 ctx).trace.all fun e => !isSchedEv e) = true := by
  have hmem : ∀ x ∈ tr0, (!isSchedEv x) = true := List.all_eq_true.mp h
  unfold researchFrom
  repeat' split
  · simp [isSchedEv, List.all_append, h]
    intro x hx
    simpa [isSchedEv, Bool.not_eq_true'] using hmem x hx
  · simp [isSchedEv, List.all_append, h]
    intro x hx
    simpa [isSchedEv, Bool.not_eq_true'] using hmem x hx
  · refine researchAnalyze_no_sched _ _ _ _ _ ?_
    simp [isSchedEv, List.all_append, h]
    intro x hx
    simpa [isSchedEv, Bool.not_eq_true'] using hmem x hx
  · simp [isSchedEv, List.all_append, h]
    intro x hx
    simpa [isSchedEv, Bool.not_eq_true'] using hmem x hx
  · refine researchAnalyze_no_sched _ _ _ _ _ ?_
    simp [isSchedEv, List.all_append, h]
    intro x hx
    simpa [isSchedEv, Bool.not_eq_true'] using hmem x hx

lemma research_body_no_sched (mods : Modules) (s : OrchState) :
    ((researchBody mods s).trace.all fun e => !isSchedEv e) = true := by
  unfold researchBody
  repeat' split
  · simp [isSchedEv]
  · exact researchFrom_no_sched _ _ _ _ _ rfl
  · simp [isSchedEv]
  · exact researchFrom_no_sched _ _ _ _ _ (by simp [isSchedEv])

lemma research_no_sched (mods : Modules) (s : OrchState) :
    ((process_research mods s).trace.all fun e => !isSchedEv e) = true :=
  catchTask_all _ _ _ (research_body_no_sched mods s) (fun _ => rfl)

lemma personality_body_no_sched (mods : Modules) (s : OrchState) :
    ((personalityBody mods s).trace.all fun e => !isSchedEv e) = true := by
  unfold personalityBody
  repeat' split
  all_goals simp [isSchedEv]

lemma personality_no_sched (mods : Modules) (s : OrchState) :
    ((process_personality mods s).trace.all fun e => !isSchedEv e) = true :=
  catchTask_all _ _ _ (personality_body_no_sched mods s) (fun _ => rfl)

lemma process_cognition_narr (mods : Modules) (s : OrchState) :
    (process_cognition mods s).state.narrative = s.narrative := by
  obtain ⟨m, hm⟩ := process_cognition_state_shape mods s
  rw [hm]

lemma process_research_narr (mods : Modules) (s : OrchState) :
    (process_research mods s).state.narrative = s.narrative := by
  obtain ⟨m, hm⟩ := process_research_state_shape mods s
  rw [hm]

lemma catchTask_narrAll (p : Narrative → Bool) (l : String) (o : TaskOut)
    (h : ((o.trace.filterMap narrArgOf).all p) = true) :
    (((catchTask l o).trace.filterMap narrArgOf).all p) = true := by
  unfold catchTask
  rcases he : o.exn with _ | e <;>
    simp [he, List.filterMap_append, List.all_append, h, narrArgOf]

lemma cognition_body_narrAll (mods : Modules) (s : OrchState) :
    (((cognitionBody mods s).trace.filterMap narrArgOf).all
      fun n => decide (n = s.narrative)) = true := by
  unfold cognitionBody
  repeat' split
  all_goals simp [narrArgOf]

lemma cognition_narrAll (mods : Modules) (s : OrchState) :
    (((process_cognition mods s).trace.filterMap narrArgOf).all
      fun n => decide (n = s.narrative)) = true :=
  catchTask_narrAll _ _ _ (cognition_body_narrAll mods s)

lemma learning_body_narrAll (mods : Modules) (s : OrchState) :
    (((learningBody mods s).trace.filterMap narrArgOf).all
      fun n => decide (n = s.narrative)) = true := by
  unfold learningBody
  repeat' split
  all_goals simp [narrArgOf]

lemma learning_narrAll (mods : Modules) (s : OrchState) :
    (((process_learning mods s).trace.filterMap narrArgOf).all
      fun n => decide (n = s.narrative)) = true :=
  catchTask_narrAll _ _ _ (learning_body_narrAll mods s)

lemma code_body_narrAll (mods : Modules) (s : OrchState) :
    (((codeUpdateBody mods s).trace.filterMap narrArgOf).all
      fun n => decide (n = s.narrative)) = true := by
  unfold codeUpdateBody
  repeat' split
  all_goals simp [narrArgOf]

lemma code_narrAll (mods : Modules) (s : OrchState) :
    (((process_code_update mods s).trace.filterMap narrArgOf).all
      fun n => decide (n = s.narrative)) = true :=
  catchTask_narrAll _ _ _ (code_body_narrAll mods s)

lemma researchAnalyze_narr_filterMap (rm : ResearchMod) (memOpt : Option MemMod)
    (s1 : OrchState) (tr2 : List Ev) (result : String) :
    (researchAnalyze rm memOpt s1 tr2 result).trace.filterMap narrArgOf
      = tr2.filterMap narrArgOf := by
  unfold researchAnalyze
  repeat' split
  all_goals simp [narrArgOf, List.filterMap_append]

lemma researchFrom_narr_filterMap (rm : ResearchMod) (memOpt : Option MemMod)
    (s : OrchState) (tr0 : List Ev) (ctx : String) :
    (researchFrom rm memOpt s tr0 ctx).trace.filterMap narrArgOf
      = tr0.filterMap narrArgOf := by
  unfold researchFrom
  repeat' split
  all_goals
    simp [narrArgOf, List.filterMap_append, researchAnalyze_narr_filterMap]

lemma research_body_narr_filterMap (mods : Modules) (s : OrchState) :
    (researchBody mods s).trace.filterMap narrArgOf = [] := by
  unfold researchBody
  repeat' split
  all_goals
    simp [narrArgOf, researchFrom_narr_filterMap]

lemma research_narrAll (mods : Modules) (s : OrchState) :
    (((process_research mods s).trace.filterMap narrArgOf).all
      fun n => decide (n = s.narrative)) = true := by
  refine catchTask_narrAll _ _ _ ?_
  rw [research_body_narr_filterMap]
  rfl

lemma personality_body_narrAll (mods : Modules) (s : OrchState) :
    (((personalityBody mods s).trace.filterMap narrArgOf).all
      fun n => decide (n = s.narrative)) = true := by
  unfold personalityBody
  repeat' split
  all_goals simp [narrArgOf]

lemma personality_narrAll (mods : Modules) (s : OrchState) :
    (((process_personality mods s).trace.filterMap narrArgOf).all
      fun n => decide (n = s.narrative)) = true :=
  catchTask_narrAll _ _ _ (personality_body_narrAll mods s)

/-- Module-registry outcome events. -/
def isLoadEv : Ev → Bool
  | .loadOk _ => true
  | .loadErr _ => true
  | _ => false

lemma loadAgain_all_load {α : Type} (name : String) (prev : Option α)
    (res : Except String α) : ((loadAgain name prev res).2.all isLoadEv) = true := by
  unfold loadAgain
  repeat' split
  all_goals rfl

lemma loadAgain_narr {α : Type} (name : String) (prev : Option α)
    (res : Except String α) : (loadAgain name prev res).2.filterMap narrArgOf = [] := by
  unfold loadAgain
  repeat' split
  all_goals rfl

lemma load_modules_all_load (env : ImportEnv) (prev : Modules) :
    ((load_modules env prev).2.all isLoadEv) = true := by
  unfold load_modules
  simp [List.all_append, loadAgain_all_load]

lemma load_modules_narr (env : ImportEnv) (prev : Modules) :
    (load_modules env prev).2.filterMap narrArgOf = [] := by
  unfold load_modules
  simp only [List.filterMap_append, loadAgain_narr, List.append_nil]

lemma runTasksSeq_state_shape (mods : Modules) (s : OrchState) :
    ∃ p m, (runTasksSeq mods s).1 =
      { narrative := { s.narrative with personality := p }, memory := m } := by
  unfold runTasksSeq
  dsimp only
  rw [process_learning_state, process_code_update_state]
  obtain ⟨m1, hm1⟩ := process_cognition_state_shape mods s
  rw [hm1]
  obtain ⟨m4, hm4⟩ := process_research_state_shape mods { s with memory := m1 }
  rw [hm4]
  obtain ⟨p5, hp5⟩ :=
    process_personality_state_shape mods { { s with memory := m1 } with memory := m4 }
  rw [hp5]
  exact ⟨p5, m4, rfl⟩

lemma runTasksSeq_no_sched (mods : Modules) (s : OrchState) :
    ((runTasksSeq mods s).2.all fun e => !isSchedEv e) = true := by
  unfold runTasksSeq
  dsimp only
  simp only [List.all_append, Bool.and_eq_true]
  exact ⟨cognition_no_sched mods _, learning_no_sched mods _, code_no_sched mods _,
    research_no_sched mods _, personality_no_sched mods _⟩

lemma runTasksSeq_narrAll (mods : Modules) (s : OrchState) :
    (((runTasksSeq mods s).2.filterMap narrArgOf).all
      fun n => decide (n = s.narrative)) = true := by
  unfold runTasksSeq
  dsimp only
  rw [process_learning_state, process_code_update_state]
  obtain ⟨m1, hm1⟩ := process_cognition_state_shape mods s
  rw [hm1]
  obtain ⟨m4, hm4⟩ := process_research_state_shape mods { s with memory := m1 }
  rw [hm4]
  simp only [List.filterMap_append, List.all_append, Bool.and_eq_true]
  exact ⟨cognition_narrAll mods s, learning_narrAll mods _, code_narrAll mods _,
    research_narrAll mods _, personality_narrAll mods _⟩

lemma runTasksSeq_personality_skip (mods : Modules) (s : OrchState)
    (h : mods.personality_module = none) :
    (runTasksSeq mods s).1.narrative.personality = s.narrative.personality
    ∧ Ev.logWarn "Personality or memory module not loaded; skipping personality update."
        ∈ (runTasksSeq mods s).2 := by
  unfold runTasksSeq
  dsimp only
  rw [process_learning_state, process_code_update_state]
  obtain ⟨m1, hm1⟩ := process_cognition_state_shape mods s
  rw [hm1]
  obtain ⟨m4, hm4⟩ := process_research_state_shape mods { s with memory := m1 }
  rw [hm4]
  rw [personality_gate_off mods _ (Or.inl h)]
  exact ⟨rfl, by simp [List.mem_append]⟩

lemma run_cycle_exn_none (env : ImportEnv) (d : ℚ) (st : SchedState) :
    (run_cycle env d st).exn = none := by
  rw [run_cycle_eq]

lemma run_cycle_wait_eq (env : ImportEnv) (d : ℚ) (st : SchedState) :
    (run_cycle env d st).wait = max (1/2 : ℚ) (st.cycle_wait - d * (1/10)) := by
  rw [run_cycle_eq]

lemma run_cycle_counter (env : ImportEnv) (d : ℚ) (st : SchedState) :
    (run_cycle env d st).state.cycleCounter = st.cycleCounter + 1 := by
  rw [run_cycle_eq]

lemma run_cycle_preserves (env : ImportEnv) (d : ℚ) (st : SchedState) :
    (run_cycle env d st).state.orch.narrative.identity = st.orch.narrative.identity
    ∧ (run_cycle env d st).state.orch.narrative.backstory = st.orch.narrative.backstory
    ∧ (run_cycle env d st).state.orch.narrative.mission = st.orch.narrative.mission
    ∧ (run_cycle env d st).state.cycle_wait = st.cycle_wait := by
  rw [run_cycle_eq]
  obtain ⟨p, m, h⟩ := runTasksSeq_state_shape (load_modules env st.modules).1 st.orch
  rw [h]
  exact ⟨rfl, rfl, rfl, rfl⟩

lemma run_cycle_metrics (env : ImportEnv) (d : ℚ) (st : SchedState) :
    (run_cycle env d st).state.orch.narrative.metrics
      = setKey st.orch.narrative.metrics "last_cycle_duration" d := by
  rw [run_cycle_eq]
  obtain ⟨p, m, h⟩ := runTasksSeq_state_shape (load_modules env st.modules).1 st.orch
  rw [h]

lemma load_modules_personality_none (env : ImportEnv) (prev : Modules)
    (h : prev.personality_module = none) :
    ((load_modules env prev).1).personality_module = none := by
  simp [load_modules, loadAgain, h]

lemma run_cycle_personality_skip (env : ImportEnv) (d : ℚ) (st : SchedState)
    (h : st.modules.personality_module = none) :
    (run_cycle env d st).state.modules.personality_module = none
    ∧ (run_cycle env d st).state.orch.narrative.personality
        = st.orch.narrative.personality
    ∧ Ev.logWarn "Personality or memory module not loaded; skipping personality update."
        ∈ (run_cycle env d st).trace := by
  have hload := load_modules_personality_none env st.modules h
  obtain ⟨hpers, hmem⟩ :=
    runTasksSeq_personality_skip (load_modules env st.modules).1 st.orch hload
  rw [run_cycle_eq]
  exact ⟨hload, hpers, by simp [List.mem_append, hmem]⟩

lemma runCycles_preserves (envs : Nat → ImportEnv) (ds : Nat → ℚ)
    (st : SchedState) : ∀ n,
    (runCycles envs ds st n).orch.narrative.identity = st.orch.narrative.identity
    ∧ (runCycles envs ds st n).orch.narrative.backstory = st.orch.narrative.backstory
    ∧ (runCycles envs ds st n).orch.narrative.mission = st.orch.narrative.mission
    ∧ (runCycles envs ds st n).cycle_wait = st.cycle_wait := by
  intro n
  induction n with
  | zero => exact ⟨rfl, rfl, rfl, rfl⟩
  | succ k ih =>
      obtain ⟨h1, h2, h3, h4⟩ :=
        run_cycle_preserves (envs k) (ds k) (runCycles envs ds st k)
      exact ⟨h1.trans ih.1, h2.trans ih.2.1, h3.trans ih.2.2.1, h4.trans ih.2.2.2⟩

/-- Import environment in which every module import raises (as for a
module whose source file is absent from the repository). -/
def emptyEnv : ImportEnv :=
  { cognitive_engine := .error "ModuleNotFoundError"
    learning_module := .error "ModuleNotFoundError"
    memory_module := .error "ModuleNotFoundError"
    code_generator := .error "ModuleNotFoundError"
    research_module := .error "ModuleNotFoundError"
    personality_module := .error "ModuleNotFoundError" }

/-- A memory provider whose calls succeed (store appends, summary is a
fixed string); used to instantiate theorems at a concrete input. -/
def wMem : MemMod :=
  { store := fun m item => .ok (m ++ [item])
    get_memory_summary := fun _ => .ok "summary0" }

/-- A personality provider whose call succeeds. -/
def wPers : PersMod :=
  { generate_personality := fun _ _ => .ok "curious" }

/-- Module map with personality and memory providers available. -/
def wModsOn : Modules := ⟨none, none, some wMem, none, none, some wPers⟩

/-- Module map with no provider available. -/
def wModsOff : Modules := ⟨none, none, none, none, none, none⟩

/-- A concrete orchestrator state. -/
def wState : OrchState := { narrative := init_narrative "p", memory := [] }

/-- A research provider whose `generate_topic` raises while the later
steps would succeed. -/
def cexTopicFail : ResearchMod :=
  { generate_topic := fun _ => .error "TopicBoom"
    research := fun t => .ok ("R: " ++ t)
    analyze_research := fun r => .ok ("A: " ++ r) }

/-- Module map with only the research provider, whose topic step raises. -/
def cexMods : Modules := ⟨none, none, none, none, some cexTopicFail, none⟩

/-- Concrete state for the research-pipeline analysis. -/
def cexS : OrchState := ⟨init_narrative "p", []⟩

/-- Events that are the second or third research pipeline provider call. -/
def isResearchStepCall : Ev → Bool
  | .callResearch _ => true
  | .callAnalyze _ => true
  | _ => false

/-- A research provider whose own calls all succeed. -/
def c9Research : ResearchMod :=
  { generate_topic := fun _ => .ok "t"
    research := fun _ => .ok "r"
    analyze_research := fun _ => .ok "a" }

/-- Module map loading the repository cognitive engine, the repository
memory module and a working research provider. -/
def c9Mods : Modules :=
  ⟨some (repoCognitiveEngine 0), none, some repoMemoryModule, none, some c9Research, none⟩

/-- C1: for every cycle, every import environment (provider availability
and load failures) and every combination of provider-raised exceptions,
one execution of `run_cycle` raises no uncaught error: every exception is
caught inside `load_modules` or inside the five task adapters and the
cycle completes (the propagated-exception slot of the cycle result is
always empty). -/
theorem aurora_C1_no_uncaught_error (env : ImportEnv) (d : ℚ) (st : SchedState) :
    (run_cycle env d st).exn = none :=
  run_cycle_exn_none env d st

/-- C2: for every measured duration `d ≥ 0`, in any scheduler state with
`cycle_wait = 1` (its value at construction, never reassigned), the
inter-cycle wait computed by `run_cycle` equals
`max 0.5 (1 - d * 0.1)`, hence is at least `0.5`; durations `0.2` and
`3.0` yield waits `0.98` and `0.7`. -/
theorem aurora_C2_adaptive_wait (env : ImportEnv) (st : SchedState) (d : ℚ)
    (hd : 0 ≤ d) (hw : st.cycle_wait = 1) :
    (run_cycle env d st).wait = max (1/2 : ℚ) (1 - d * (1/10))
    ∧ (1/2 : ℚ) ≤ (run_cycle env d st).wait
    ∧ (run_cycle env (1/5) st).wait = 49/50
    ∧ (run_cycle env 3 st).wait = 7/10 := by
  rw [run_cycle_wait_eq, run_cycle_wait_eq, run_cycle_wait_eq, hw]
  refine ⟨rfl, le_max_left _ _, ?_, ?_⟩
  · have h1 : (1:ℚ) - (1/5) * (1/10) = 49/50 := by norm_num
    rw [h1, max_eq_right (by norm_num : (1/2:ℚ) ≤ 49/50)]
  · have h2 : (1:ℚ) - 3 * (1/10) = 7/10 := by norm_num
    rw [h2, max_eq_right (by norm_num : (1/2:ℚ) ≤ 7/10)]

/-- Witness for C2 at a concrete environment, state and duration. -/
theorem aurora_C2_witness :
    (0:ℚ) ≤ 1/5
    ∧ (auroraInit emptyEnv "p").cycle_wait = 1
    ∧ (run_cycle emptyEnv (1/5) (auroraInit emptyEnv "p")).wait = 49/50 :=
  ⟨by norm_num, rfl,
    (aurora_C2_adaptive_wait emptyEnv (auroraInit emptyEnv "p") (1/5)
      (by norm_num) rfl).2.2.1⟩

/-- C3: over any number of cycles, with any per-cycle import environments
and durations, `identity`, `backstory` and `mission` are unchanged from
the values set at construction; at construction they are `"Aurora"`, the
prompt, and the fixed mission string. -/
theorem aurora_C3_narrative_immutable (envs : Nat → ImportEnv) (ds : Nat → ℚ)
    (st : SchedState) (n : Nat) :
    ((runCycles envs ds st n).orch.narrative.identity = st.orch.narrative.identity
      ∧ (runCycles envs ds st n).orch.narrative.backstory = st.orch.narrative.backstory
      ∧ (runCycles envs ds st n).orch.narrative.mission = st.orch.narrative.mission)
    ∧ ∀ env0 prompt,
        (auroraInit env0 prompt).orch.narrative.identity = "Aurora"
        ∧ (auroraInit env0 prompt).orch.narrative.backstory = prompt
        ∧ (auroraInit env0 prompt).orch.narrative.mission
            = "Learn and evolve across all domains." :=
  ⟨⟨(runCycles_preserves envs ds st n).1, (runCycles_preserves envs ds st n).2.1,
      (runCycles_preserves envs ds st n).2.2.1⟩,
    fun _ _ => ⟨rfl, rfl, rfl⟩⟩

/-- C4: the personality update is gated on the conjunction of the
personality provider and memory: if either is unavailable, the adapter
only emits the warning (no provider call, state unchanged); if both are
available and both calls succeed, the narrative personality becomes the
value returned by `generate_personality(narrative, memory_summary)`. -/
theorem aurora_C4_personality_gate :
    (∀ (mods : Modules) (s : OrchState),
      (mods.personality_module = none ∨ mods.memory_module = none) →
      process_personality mods s =
        { state := s
          trace := [Ev.logWarn "Personality or memory module not loaded; skipping personality update."]
          exn := none })
    ∧ (∀ (mods : Modules) (s : OrchState) (pm : PersMod) (mem : MemMod)
        (summ newp : String),
        mods.personality_module = some pm →
        mods.memory_module = some mem →
        mem.get_memory_summary s.memory = .ok summ →
        pm.generate_personality s.narrative summ = .ok newp →
        (process_personality mods s).state.narrative.personality = newp) := by
  refine ⟨personality_gate_off, ?_⟩
  intro mods s pm mem summ newp hp hm hs hg
  rw [personality_gate_on mods s pm mem summ newp hp hm hs hg]

/-- Witness for C4, at a concrete gate-off input and a concrete gate-on
input. -/
theorem aurora_C4_witness :
    (wModsOff.personality_module = none ∨ wModsOff.memory_module = none)
    ∧ process_personality wModsOff wState =
        { state := wState
          trace := [Ev.logWarn "Personality or memory module not loaded; skipping personality update."]
          exn := none }
    ∧ wModsOn.personality_module = some wPers
    ∧ wModsOn.memory_module = some wMem
    ∧ wMem.get_memory_summary wState.memory = .ok "summary0"
    ∧ wPers.generate_personality wState.narrative "summary0" = .ok "curious"
    ∧ (process_personality wModsOn wState).state.narrative.personality = "curious" :=
  ⟨Or.inl rfl,
    aurora_C4_personality_gate.1 wModsOff wState (Or.inl rfl),
    rfl, rfl, rfl, rfl,
    aurora_C4_personality_gate.2 wModsOn wState wPers wMem "summary0" "curious"
      rfl rfl rfl rfl⟩

/-- C5: in every cycle in which the research provider is unavailable, the
research adapter only logs the warning: no `generate_topic`, `research`
or `analyze_research` call, state (and hence memory) unchanged. -/
theorem aurora_C5_research_skip (mods : Modules) (s : OrchState)
    (h : mods.research_module = none) :
    process_research mods s =
      { state := s, trace := [Ev.logWarn "Research module not loaded."], exn := none }
    ∧ (process_research mods s).state.memory = s.memory := by
  refine ⟨research_gate_off mods s h, ?_⟩
  rw [research_gate_off mods s h]

/-- Witness for C5 at a concrete module map without a research provider. -/
theorem aurora_C5_witness :
    wModsOff.research_module = none
    ∧ process_research wModsOff wState =
        { state := wState, trace := [Ev.logWarn "Research module not loaded."], exn := none } :=
  ⟨rfl, (aurora_C5_research_skip wModsOff wState rfl).1⟩

/-- C6 counterexample: with the research provider available and
`generate_topic` raising, the pipeline does NOT run its remaining steps
in that cycle — the trace shows the topic call and the error log only,
and contains no `research` and no `analyze_research` call, refuting the
claim that an exception in one step leaves the remaining steps able to
execute. -/
theorem aurora_C6_counterexample :
    cexMods.research_module.isSome = true
    ∧ process_research cexMods cexS =
        { state := cexS
          trace := [Ev.callGenerateTopic "No memory summary available.",
                    Ev.logError "Error in research_module: TopicBoom"]
          exn := none }
    ∧ (process_research cexMods cexS).trace.filter isResearchStepCall = [] := by
  refine ⟨rfl, ?_, ?_⟩ <;> rfl

/-- C6 amended: the research pipeline runs inside one `try`/`except`: an
exception raised in any step is caught by the adapter and logged (never
escaping), but it aborts the remaining steps of the pipeline for that
cycle; in particular a `generate_topic` failure ends the cycle's pipeline
with only the topic call and the error log in the trace. -/
theorem aurora_C6_amended :
    (∀ (mods : Modules) (s : OrchState) (e : String),
      (researchBody mods s).exn = some e →
      process_research mods s =
        { state := (researchBody mods s).state
          trace := (researchBody mods s).trace
                    ++ [Ev.logError ("Error in research_module: " ++ e)]
          exn := none })
    ∧ (∀ (mods : Modules) (s : OrchState) (rm : ResearchMod) (e : String),
        mods.research_module = some rm →
        mods.memory_module = none →
        rm.generate_topic "No memory summary available." = .error e →
        process_research mods s =
          { state := s
            trace := [Ev.callGenerateTopic "No memory summary available.",
                      Ev.logError ("Error in research_module: " ++ e)]
            exn := none }) := by
  constructor
  · intro mods s e he
    unfold process_research catchTask
    rw [he]
  · intro mods s rm e hr hm hg
    simp [process_research, researchBody, researchFrom, catchTask, hr, hm, hg]

/-- Witness for the amended C6 at the concrete failing-topic input. -/
theorem aurora_C6_witness :
    (researchBody cexMods cexS).exn = some "TopicBoom"
    ∧ cexMods.research_module = some cexTopicFail
    ∧ cexMods.memory_module = none
    ∧ cexTopicFail.generate_topic "No memory summary available." = .error "TopicBoom"
    ∧ process_research cexMods cexS =
        { state := cexS
          trace := [Ev.callGenerateTopic "No memory summary available.",
                    Ev.logError ("Error in research_module: " ++ "TopicBoom")]
          exn := none } :=
  ⟨rfl, rfl, rfl, rfl,
    aurora_C6_amended.2 cexMods cexS cexTopicFail "TopicBoom" rfl rfl rfl⟩

/-- C7: within one cycle, every narrative value passed to a provider call
(`process`, `learn`, `generate_personality`) equals the pre-cycle
narrative: no adapter observes another adapter's narrative write of the
same cycle, in particular not the personality value written by the
personality task. -/
theorem aurora_C7_snapshot_isolation (env : ImportEnv) (d : ℚ) (st : SchedState) :
    (((run_cycle env d st).trace.filterMap narrArgOf).all
      fun n => decide (n = st.orch.narrative)) = true := by
  rw [run_cycle_eq]
  simp only [List.filterMap_append, List.all_append, Bool.and_eq_true]
  refine ⟨?_, runTasksSeq_narrAll _ _, ?_⟩
  · rw [load_modules_narr]
    rfl
  · rfl

/-- C8: in every cycle the operations occur in a fixed order — the trace
is the module-load records, then the task events (which contain no load
record and no metric write), then the single metric write; the counter
is incremented by exactly one and the duration is written into the
narrative metrics under `"last_cycle_duration"`. -/
theorem aurora_C8_cycle_ordering (env : ImportEnv) (d : ℚ) (st : SchedState) :
    (run_cycle env d st).state.cycleCounter = st.cycleCounter + 1
    ∧ (run_cycle env d st).state.orch.narrative.metrics
        = setKey st.orch.narrative.metrics "last_cycle_duration" d
    ∧ ((load_modules env st.modules).2.all isLoadEv) = true
    ∧ ∃ taskTr,
        (run_cycle env d st).trace
          = (load_modules env st.modules).2
              ++ (taskTr ++ [Ev.recordMetric "last_cycle_duration" d])
        ∧ (taskTr.all fun e => !isSchedEv e) = true := by
  refine ⟨run_cycle_counter env d st, run_cycle_metrics env d st,
    load_modules_all_load env st.modules,
    (runTasksSeq (load_modules env st.modules).1 st.orch).2, ?_,
    runTasksSeq_no_sched _ _⟩
  rw [run_cycle_eq]

/-- C9: when the repository memory module (which has no module-level
`store` / `get_memory_summary`) is the loaded memory provider and the
repository cognitive engine is loaded, the cognition adapter's store call
raises after `process` so nothing is stored, and the research adapter
raises at the summary call and aborts before `generate_topic` even though
the research provider is available; both failures are caught and logged. -/
theorem aurora_C9_repo_memory_failures (mods : Modules) (s : OrchState)
    (pick : Nat) (rm : ResearchMod)
    (hmem : mods.memory_module = some repoMemoryModule)
    (hcog : mods.cognitive_engine = some (repoCognitiveEngine pick))
    (hres : mods.research_module = some rm) :
    process_cognition mods s =
      { state := s
        trace := [Ev.callProcess s.narrative,
                  Ev.callStore (repoThought s.narrative pick),
                  Ev.logError ("Error in cognitive_engine processing: "
                    ++ attrErr "memory_module" "store")]
        exn := none }
    ∧ process_research mods s =
      { state := s
        trace := [Ev.callSummary,
                  Ev.logError ("Error in research_module: "
                    ++ attrErr "memory_module" "get_memory_summary")]
        exn := none } := by
  constructor
  · simp [process_cognition, cognitionBody, catchTask, hmem, hcog,
      repoCognitiveEngine, repoMemoryModule]
  · simp [process_research, researchBody, catchTask, hmem, hres, repoMemoryModule]

/-- Witness for C9 at a concrete module map. -/
theorem aurora_C9_witness :
    c9Mods.memory_module = some repoMemoryModule
    ∧ c9Mods.cognitive_engine = some (repoCognitiveEngine 0)
    ∧ c9Mods.research_module = some c9Research
    ∧ (process_cognition c9Mods wState).state = wState
    ∧ (process_research c9Mods wState).state = wState := by
  have h := aurora_C9_repo_memory_failures c9Mods wState 0 c9Research rfl rfl rfl
  refine ⟨rfl, rfl, rfl, ?_, ?_⟩
  · rw [h.1]
  · rw [h.2]

/-- C10: when the initial import of `personality_module` fails (the
repository ships no such file), the `self.modules` entry is the `None`
sentinel in every cycle (a later `importlib.reload(None)` raises
regardless of the environment), the personality task takes the
warn-and-skip branch in every cycle, and the narrative personality stays
`"undefined"` for the whole run. -/
theorem aurora_C10_personality_never_updates (env0 : ImportEnv) (prompt : String)
    (e : String) (h : env0.personality_module = .error e)
    (envs : Nat → ImportEnv) (ds : Nat → ℚ) : ∀ n : Nat,
    (runCycles envs ds (auroraInit env0 prompt) n).modules.personality_module = none
    ∧ (runCycles envs ds (auroraInit env0 prompt) n).orch.narrative.personality
        = "undefined"
    ∧ Ev.logWarn "Personality or memory module not loaded; skipping personality update."
        ∈ (run_cycle (envs n) (ds n) (runCycles envs ds (auroraInit env0 prompt) n)).trace := by
  have h0 : (auroraInit env0 prompt).modules.personality_module = none := by
    simp [auroraInit, importModules, loadFresh, h]
  intro n
  induction n with
  | zero =>
      exact ⟨h0, rfl, (run_cycle_personality_skip _ _ _ h0).2.2⟩
  | succ k ih =>
      obtain ⟨ih1, ih2, _⟩ := ih
      obtain ⟨g1, g2, _⟩ := run_cycle_personality_skip (envs k) (ds k) _ ih1
      exact ⟨g1, g2.trans ih2, (run_cycle_personality_skip _ _ _ g1).2.2⟩

/-- Witness for C10 at a concrete environment, two cycles deep. -/
theorem aurora_C10_witness :
    emptyEnv.personality_module = .error "ModuleNotFoundError"
    ∧ (runCycles (fun _ => emptyEnv) (fun _ => 1)
        (auroraInit emptyEnv "p") 2).orch.narrative.personality = "undefined" :=
  ⟨rfl,
    (aurora_C10_personality_never_updates emptyEnv "p" "ModuleNotFoundError" rfl
      (fun _ => emptyEnv) (fun _ => 1) 2).2.1⟩
